import Mathlib

/-!
Shallow embedding of the DeviceMonitorView composition root (src/Index(1).tsx).

The component owns five state slots (deviceData, alerts, logs, config,
isConnected), subscribes to four realtime-store paths scoped under a device
identity, projects each incoming snapshot into the corresponding slot, and
exposes two write actions.  Numeric sensor fields are embedded as rationals,
timestamps as strings (ISO-8601 order is string order), and a store snapshot
as an `Option` payload (`none` = the path holds no data).
-/

namespace DeviceMonitor

structure GeoPoint where
  lat : Rat
  lng : Rat
  deriving DecidableEq, Repr

structure DeviceData where
  temperature : Rat
  humidity : Rat
  lpgLevel : Int
  flameStatus : Bool
  gasLeakStatus : Bool
  timestamp : String
  location : GeoPoint
  deriving DecidableEq, Repr

structure Alert where
  id : String
  type : String
  message : String
  timestamp : String
  deriving DecidableEq, Repr

/-- The value stored under one alert key in the store's alerts object;
the `id` is supplied by the enclosing key, not by the body. -/
structure AlertBody where
  type : String
  message : String
  timestamp : String
  deriving DecidableEq, Repr

structure LogEvent where
  timestamp : String
  eventType : String
  temperature : Rat
  humidity : Rat
  lpgLevel : Int
  flameStatus : Bool
  gasLeakStatus : Bool
  deriving DecidableEq, Repr

/-- The config object is opaque to the component and round-tripped verbatim;
embedded as a key/value association list. -/
abbrev DeviceConfig := List (String × String)

structure ComponentState where
  deviceData : Option DeviceData
  alerts : List Alert
  logs : List LogEvent
  config : Option DeviceConfig
  isConnected : Bool
  deriving DecidableEq, Repr

def initialState : ComponentState :=
  { deviceData := none, alerts := [], logs := [], config := none,
    isConnected := false }

def dataPath (hno : String) : String := "/devices/" ++ hno ++ "/current"

def alertsPath (hno : String) : String := "/devices/" ++ hno ++ "/alerts"

def logsPath (hno : String) : String := "/devices/" ++ hno ++ "/logs/events"

def configPath (hno : String) : String := "/devices/" ++ hno ++ "/config"

def calibratePath (hno : String) : String :=
  "/devices/" ++ hno ++ "/commands/calibrate"

/-- The mock telemetry reading assigned when the telemetry path is empty;
`now` stands for `new Date().toISOString()`. -/
def mockDeviceData (now : String) : DeviceData :=
  { temperature := 28.5, humidity := 65, lpgLevel := 8500,
    flameStatus := false, gasLeakStatus := false, timestamp := now,
    location := { lat := 6.9271, lng := 79.8612 } }

/-- The mock alert assigned when the alerts path is empty. -/
def mockAlert (now : String) : Alert :=
  { id := "1", type := "auto-book",
    message := "LPG Level Low â€” Auto-book triggered", timestamp := now }

/-- The mock log entry assigned when the logs path is empty. -/
def mockLog (now : String) : LogEvent :=
  { timestamp := now, eventType := "Normal", temperature := 28.5,
    humidity := 65, lpgLevel := 8500, flameStatus := false,
    gasLeakStatus := false }

/-- The telemetry `onValue` callback (lines 37-56). -/
def onDataValue (now : String) (snap : Option DeviceData)
    (s : ComponentState) : ComponentState :=
  match snap with
  | some d => { s with deviceData := some d, isConnected := true }
  | none   => { s with deviceData := some (mockDeviceData now),
                       isConnected := true }

/-- The telemetry error callback (lines 57-60): log and set connected false. -/
def onDataError (s : ComponentState) : ComponentState :=
  { s with isConnected := false }

/-- `Object.keys(alertsData).map(key => ({id: key, ...alertsData[key]}))`. -/
def decodeAlerts (payload : List (String × AlertBody)) : List Alert :=
  payload.map fun kv =>
    { id := kv.1, type := kv.2.type, message := kv.2.message,
      timestamp := kv.2.timestamp }

/-- The alerts `onValue` callback (lines 64-83); `slice(0, 10)` is `take 10`. -/
def onAlertsValue (now : String) (snap : Option (List (String × AlertBody)))
    (s : ComponentState) : ComponentState :=
  match snap with
  | some payload => { s with alerts := (decodeAlerts payload).take 10 }
  | none         => { s with alerts := [mockAlert now] }

/-- JavaScript `slice(-50)`: the last `min(length, 50)` entries. -/
def sliceLastFifty (l : List LogEvent) : List LogEvent :=
  l.drop (l.length - 50)

/-- The logs `onValue` callback (lines 87-106): `slice(-50).reverse()`. -/
def onLogsValue (now : String) (snap : Option (List LogEvent))
    (s : ComponentState) : ComponentState :=
  match snap with
  | some payload => { s with logs := (sliceLastFifty payload).reverse }
  | none         => { s with logs := [mockLog now] }

/-- The config `onValue` callback (lines 110-114): assigns only when the
snapshot exists; an empty snapshot runs no state update. -/
def onConfigValue (snap : Option DeviceConfig)
    (s : ComponentState) : ComponentState :=
  match snap with
  | some c => { s with config := some c }
  | none   => s

/-- One asynchronous event delivered to the component by the store client. -/
inductive StoreEvent where
  | dataValue (now : String) (snap : Option DeviceData)
  | dataError
  | alertsValue (now : String) (snap : Option (List (String × AlertBody)))
  | alertsError
  | logsValue (now : String) (snap : Option (List LogEvent))
  | logsError
  | configValue (snap : Option DeviceConfig)
  | configError
  deriving DecidableEq, Repr

/-- The component's reaction to one store event.  The `onValue` calls for
alerts, logs and config pass no error callback in the source, so an error
event on those subscriptions runs no component code: the state is unchanged. -/
def step (e : StoreEvent) (s : ComponentState) : ComponentState :=
  match e with
  | .dataValue now snap   => onDataValue now snap s
  | .dataError            => onDataError s
  | .alertsValue now snap => onAlertsValue now snap s
  | .alertsError          => s
  | .logsValue now snap   => onLogsValue now snap s
  | .logsError            => s
  | .configValue snap     => onConfigValue snap s
  | .configError          => s

/-- What one `onValue` registration in the effect body looks like:
its path and whether an error callback was supplied. -/
structure SubscriptionSpec where
  path : String
  hasErrorHandler : Bool
  deriving DecidableEq, Repr

/-- The four `onValue` registrations of the effect body (lines 34-122),
in source order; only the telemetry one passes an error callback. -/
def effectSubscriptions (hno : String) : List SubscriptionSpec :=
  [ { path := dataPath hno, hasErrorHandler := true },
    { path := alertsPath hno, hasErrorHandler := false },
    { path := logsPath hno, hasErrorHandler := false },
    { path := configPath hno, hasErrorHandler := false } ]

/-- The store client's listener registry: each `onValue` call hands back an
unsubscribe closure, embedded as a fresh token; `active` lists the live
listeners as (token, path) pairs. -/
structure Registry where
  nextToken : Nat
  active : List (Nat × String)
  deriving DecidableEq, Repr

def Registry.subscribe (r : Registry) (path : String) : Nat × Registry :=
  (r.nextToken,
   { nextToken := r.nextToken + 1, active := (r.nextToken, path) :: r.active })

/-- Invoking the unsubscribe closure for `tok` removes that listener; removing
an absent token is a no-op, so unsubscribing is idempotent. -/
def Registry.unsubscribe (r : Registry) (tok : Nat) : Registry :=
  { r with active := r.active.filter fun p => p.1 != tok }

/-- The effect body: subscribe the four paths in source order, returning the
four unsubscribe tokens. -/
def mountEffect (hno : String) (r : Registry) : List Nat × Registry :=
  let s1 := r.subscribe (dataPath hno)
  let s2 := s1.2.subscribe (alertsPath hno)
  let s3 := s2.2.subscribe (logsPath hno)
  let s4 := s3.2.subscribe (configPath hno)
  ([s1.1, s2.1, s3.1, s4.1], s4.2)

/-- The effect cleanup (lines 116-121): invoke all four unsubscribe closures. -/
def cleanup (toks : List Nat) (r : Registry) : Registry :=
  toks.foldl Registry.unsubscribe r

/-- A value written to the store by one of the two write actions. -/
inductive StorePayload where
  | config (c : DeviceConfig)
  | command (name : String) (timestamp : Int)
  deriving DecidableEq, Repr

structure WriteOp where
  path : String
  payload : StorePayload
  deriving DecidableEq, Repr

/-- `handleSaveConfig` (lines 124-127): one `set` on the config path with the
argument as literal payload; the component state is untouched. -/
def handleSaveConfig (hno : String) (newConfig : DeviceConfig)
    (s : ComponentState) : List WriteOp × ComponentState :=
  ([{ path := configPath hno, payload := StorePayload.config newConfig }], s)

/-- `handleCalibrate` (lines 129-132): one `set` on the commands path. -/
def handleCalibrate (hno : String) (nowMs : Int)
    (s : ComponentState) : List WriteOp × ComponentState :=
  ([{ path := calibratePath hno,
      payload := StorePayload.command "START_CALIBRATION" nowMs }], s)

/-- One push-notification record held by the notification gateway. -/
structure NotificationRecord where
  id : String
  read : Bool
  content : String
  deriving DecidableEq, Repr

/-- `notificationHistory.filter(n => !n.read).length` (lines 162, 164). -/
def unreadCount (history : List NotificationRecord) : Nat :=
  (history.filter fun n => !n.read).length

/-- The Notifications tab badge: rendered with the unread count when it is
positive, absent otherwise (lines 160-167). -/
def notificationsBadge (history : List NotificationRecord) : Option Nat :=
  if 0 < unreadCount history then some (unreadCount history) else none

/-- Modelled from the spec: the notification gateway (the `useFCM` hook) is
not under src/; its history mutation on mark-as-read is specified only as
"a mark-as-read action (by record id)", so marking sets the read flag of the
record(s) carrying that id. -/
def markAsRead (target : String)
    (history : List NotificationRecord) : List NotificationRecord :=
  history.map fun n => if n.id = target then { n with read := true } else n

/-- C1: on a snapshot with data on the alerts subscription, the alerts state
is exactly the first 10 entries of the decoded store payload (fewer if the
payload has fewer), so its length is at most 10 regardless of payload size. -/
theorem alerts_take_ten (now : String) (payload : List (String × AlertBody))
    (s : ComponentState) :
    (onAlertsValue now (some payload) s).alerts = (decodeAlerts payload).take 10 ∧
    (onAlertsValue now (some payload) s).alerts.length = min 10 payload.length ∧
    (onAlertsValue now (some payload) s).alerts.length ≤ 10 := by
  refine ⟨rfl, ?_, ?_⟩ <;>
    simp [onAlertsValue, decodeAlerts, List.length_take]

/-- C2: on a snapshot with data on the logs subscription holding a
chronologically-ordered list of n entries, the logs state is the last
min(n, 50) entries reversed to newest-first; hence its length is at most 50
and it is ordered newest-first. -/
theorem logs_last_fifty_newest_first (now : String) (payload : List LogEvent)
    (s : ComponentState)
    (hchron : payload.Pairwise fun a b => a.timestamp ≤ b.timestamp) :
    (onLogsValue now (some payload) s).logs =
      (payload.drop (payload.length - 50)).reverse ∧
    (onLogsValue now (some payload) s).logs.length = min payload.length 50 ∧
    (onLogsValue now (some payload) s).logs.length ≤ 50 ∧
    (onLogsValue now (some payload) s).logs.Pairwise
      fun a b => b.timestamp ≤ a.timestamp := by
  refine ⟨rfl, ?_, ?_, ?_⟩
  · simp only [onLogsValue, sliceLastFifty, List.length_reverse, List.length_drop]
    omega
  · simp only [onLogsValue, sliceLastFifty, List.length_reverse, List.length_drop]
    omega
  · show ((payload.drop (payload.length - 50)).reverse).Pairwise _
    rw [List.pairwise_reverse]
    exact hchron.sublist (List.drop_sublist _ _)

/-- C2 witness: the logs projection evaluated on a concrete two-entry
chronologically-ordered payload. -/
theorem logs_last_fifty_newest_first_witness :
    ((([mockLog "a", mockLog "a"] : List LogEvent).Pairwise
        fun a b => a.timestamp ≤ b.timestamp) ∧
     ((onLogsValue "z" (some [mockLog "a", mockLog "a"]) initialState).logs =
        (([mockLog "a", mockLog "a"] : List LogEvent).drop
          (([mockLog "a", mockLog "a"] : List LogEvent).length - 50)).reverse ∧
      (onLogsValue "z" (some [mockLog "a", mockLog "a"]) initialState).logs.length =
        min ([mockLog "a", mockLog "a"] : List LogEvent).length 50 ∧
      (onLogsValue "z" (some [mockLog "a", mockLog "a"]) initialState).logs.length ≤ 50 ∧
      (onLogsValue "z" (some [mockLog "a", mockLog "a"]) initialState).logs.Pairwise
        fun a b => b.timestamp ≤ a.timestamp)) :=
  ⟨by simp [mockLog], logs_last_fifty_newest_first "z" [mockLog "a", mockLog "a"]
      initialState (by simp [mockLog])⟩

/-- C3: on an empty telemetry notification, connected becomes true and the
telemetry slot is replaced with the fixed fallback reading (temperature 28.5,
humidity 65, lpgLevel 8500, flameStatus false, gasLeakStatus false) stamped
with the current wall-clock time; one fallback per empty notification, total. -/
theorem telemetry_empty_fallback (now : String) (s : ComponentState) :
    (onDataValue now none s).isConnected = true ∧
    (onDataValue now none s).deviceData = some (mockDeviceData now) ∧
    (mockDeviceData now).temperature = 28.5 ∧
    (mockDeviceData now).humidity = 65 ∧
    (mockDeviceData now).lpgLevel = 8500 ∧
    (mockDeviceData now).flameStatus = false ∧
    (mockDeviceData now).gasLeakStatus = false ∧
    (mockDeviceData now).timestamp = now :=
  ⟨rfl, rfl, rfl, rfl, rfl, rfl, rfl, rfl⟩

/-- C4 counterexample: a transport error on the alerts subscription does NOT
set the connected flag to false, refuting the claim quantified over every
read subscription. -/
theorem error_any_subscription_cex :
    ¬ (step StoreEvent.alertsError
        { initialState with isConnected := true }).isConnected = false := by
  decide

/-- C4 amended: a transport error on the telemetry subscription sets the
connected flag to false and modifies no other state slot; a transport error
on the alerts, logs or config subscription (which register no error callback)
leaves the whole state unchanged.  In both cases the error is swallowed. -/
theorem telemetry_error_swallowed (s : ComponentState) :
    (onDataError s).isConnected = false ∧
    (onDataError s).deviceData = s.deviceData ∧
    (onDataError s).alerts = s.alerts ∧
    (onDataError s).logs = s.logs ∧
    (onDataError s).config = s.config ∧
    step StoreEvent.dataError s = onDataError s ∧
    step StoreEvent.alertsError s = s ∧
    step StoreEvent.logsError s = s ∧
    step StoreEvent.configError s = s :=
  ⟨rfl, rfl, rfl, rfl, rfl, rfl, rfl, rfl, rfl⟩

/-- Marking one record as read converts unread records carrying the target id
into read ones and touches nothing else, so the unread lengths balance. -/
theorem unread_decrement_aux (target : String) (h : List NotificationRecord) :
    ((h.map fun n => if n.id = target then { n with read := true } else n).filter
        fun n => !n.read).length
      + (h.filter fun n => !n.read && n.id == target).length
      = (h.filter fun n => !n.read).length := by
  induction h with
  | nil => rfl
  | cons a t ih =>
    by_cases hid : a.id = target
    · cases hrd : a.read
      · simp only [List.map_cons]
        rw [if_pos hid,
          List.filter_cons_of_neg
            (p := fun n : NotificationRecord => !n.read) (a := { a with read := true }) (by simp),
          List.filter_cons_of_pos
            (p := fun n : NotificationRecord => !n.read && n.id == target) (a := a)
            (by simp [hrd, hid]),
          List.filter_cons_of_pos (p := fun n : NotificationRecord => !n.read) (a := a) (l := t)
            (by simp [hrd])]
        simp only [List.length_cons]
        omega
      · simp only [List.map_cons]
        rw [if_pos hid,
          List.filter_cons_of_neg
            (p := fun n : NotificationRecord => !n.read) (a := { a with read := true }) (by simp),
          List.filter_cons_of_neg
            (p := fun n : NotificationRecord => !n.read && n.id == target) (a := a)
            (by simp [hrd]),
          List.filter_cons_of_neg (p := fun n : NotificationRecord => !n.read) (a := a) (l := t)
            (by simp [hrd])]
        exact ih
    · cases hrd : a.read
      · simp only [List.map_cons]
        rw [if_neg hid,
          List.filter_cons_of_pos (p := fun n : NotificationRecord => !n.read) (a := a)
            (l := t.map fun n =>
              if n.id = target then { n with read := true } else n)
            (by simp [hrd]),
          List.filter_cons_of_neg
            (p := fun n : NotificationRecord => !n.read && n.id == target) (a := a)
            (by simp [hid]),
          List.filter_cons_of_pos (p := fun n : NotificationRecord => !n.read) (a := a) (l := t)
            (by simp [hrd])]
        simp only [List.length_cons]
        omega
      · simp only [List.map_cons]
        rw [if_neg hid,
          List.filter_cons_of_neg (p := fun n : NotificationRecord => !n.read) (a := a)
            (l := t.map fun n =>
              if n.id = target then { n with read := true } else n)
            (by simp [hrd]),
          List.filter_cons_of_neg
            (p := fun n : NotificationRecord => !n.read && n.id == target) (a := a)
            (by simp [hrd]),
          List.filter_cons_of_neg (p := fun n : NotificationRecord => !n.read) (a := a) (l := t)
            (by simp [hrd])]
        exact ih

/-- C5: the unread badge on the Notifications tab is a pure function of the
gateway history equal to the number of records whose read flag is false
(absent badge standing for zero), and a mark-as-read action on an id carried
by exactly one unread record reduces that count by exactly one. -/
theorem unread_count_badge (h : List NotificationRecord) (target : String)
    (hone : (h.filter fun n => !n.read && n.id == target).length = 1) :
    (notificationsBadge h).getD 0 = unreadCount h ∧
    unreadCount (markAsRead target h) + 1 = unreadCount h := by
  constructor
  · unfold notificationsBadge
    split
    · rfl
    · next hz =>
      have h0 : unreadCount h = 0 := by omega
      simp [h0]
  · have haux := unread_decrement_aux target h
    rw [hone] at haux
    simpa [unreadCount, markAsRead] using haux

/-- C5 witness: the badge and the mark-as-read decrement evaluated on a
one-record history. -/
theorem unread_count_badge_witness :
    ((([⟨"a", false, "m"⟩] : List NotificationRecord).filter
        fun n => !n.read && n.id == "a").length = 1 ∧
     ((notificationsBadge [⟨"a", false, "m"⟩]).getD 0 =
        unreadCount [⟨"a", false, "m"⟩] ∧
      unreadCount (markAsRead "a" [⟨"a", false, "m"⟩]) + 1 =
        unreadCount [⟨"a", false, "m"⟩])) :=
  ⟨by decide, unread_count_badge [⟨"a", false, "m"⟩] "a" (by decide)⟩

/-- A filter by "token differs from t" keeps a head entry whose token is not t. -/
theorem filter_cons_ne_token {h1 : Nat} {pth : String}
    {l : List (Nat × String)} {t : Nat} (h : h1 ≠ t) :
    (((h1, pth) :: l).filter fun q => q.1 != t)
      = (h1, pth) :: l.filter fun q => q.1 != t := by
  simp [List.filter_cons, h]

/-- A filter by "token differs from t" drops a head entry whose token is t. -/
theorem filter_cons_eq_token {h1 : Nat} {pth : String}
    {l : List (Nat × String)} {t : Nat} (h : h1 = t) :
    (((h1, pth) :: l).filter fun q => q.1 != t)
      = l.filter fun q => q.1 != t := by
  simp [List.filter_cons, h]

/-- Unsubscribing a token never owned by the registry leaves it intact. -/
theorem filter_ne_token_of_lt {l : List (Nat × String)} {n t : Nat}
    (hall : ∀ p ∈ l, p.1 < n) (hle : n ≤ t) :
    (l.filter fun q => q.1 != t) = l := by
  rw [List.filter_eq_self]
  intro a ha
  have h1 := hall a ha
  simp only [bne_iff_ne, ne_eq]
  omega

/-- Invoking unsubscribe closures never changes the token counter. -/
theorem cleanup_nextToken (toks : List Nat) (r : Registry) :
    (cleanup toks r).nextToken = r.nextToken := by
  induction toks generalizing r with
  | nil => rfl
  | cons t ts ih => simpa [cleanup, List.foldl] using ih (r.unsubscribe t)

/-- C7: mounting the effect registers exactly four new subscriptions; the
cleanup tears exactly those four down, restoring the previous listener set
(no leak); remounting for a changed device identity again registers exactly
four fresh subscriptions; and an unsubscribe closure is idempotent. -/
theorem subscription_lifecycle (hno hno2 : String) (r reg : Registry) (t : Nat)
    (hinv : (r.active.all fun p => decide (p.1 < r.nextToken)) = true) :
    (mountEffect hno r).1 =
      [r.nextToken, r.nextToken + 1, r.nextToken + 2, r.nextToken + 3] ∧
    (mountEffect hno r).2.active =
      (r.nextToken + 3, configPath hno) :: (r.nextToken + 2, logsPath hno) ::
      (r.nextToken + 1, alertsPath hno) :: (r.nextToken, dataPath hno) ::
      r.active ∧
    (cleanup (mountEffect hno r).1 (mountEffect hno r).2).active = r.active ∧
    (mountEffect hno2
        (cleanup (mountEffect hno r).1 (mountEffect hno r).2)).2.active =
      (r.nextToken + 7, configPath hno2) :: (r.nextToken + 6, logsPath hno2) ::
      (r.nextToken + 5, alertsPath hno2) :: (r.nextToken + 4, dataPath hno2) ::
      r.active ∧
    (reg.unsubscribe t).unsubscribe t = reg.unsubscribe t := by
  have hall : ∀ p ∈ r.active, p.1 < r.nextToken := by
    intro p hp
    have := List.all_eq_true.mp hinv p hp
    simpa using this
  have hA1 : (((r.nextToken + 3, configPath hno) ::
        (r.nextToken + 2, logsPath hno) :: (r.nextToken + 1, alertsPath hno) ::
        (r.nextToken, dataPath hno) :: r.active).filter
          fun q => q.1 != r.nextToken)
      = (r.nextToken + 3, configPath hno) :: (r.nextToken + 2, logsPath hno) ::
        (r.nextToken + 1, alertsPath hno) :: r.active := by
    rw [filter_cons_ne_token (by omega), filter_cons_ne_token (by omega),
      filter_cons_ne_token (by omega), filter_cons_eq_token rfl,
      filter_ne_token_of_lt hall (le_refl _)]
  have hA2 : (((r.nextToken + 3, configPath hno) ::
        (r.nextToken + 2, logsPath hno) :: (r.nextToken + 1, alertsPath hno) ::
        r.active).filter fun q => q.1 != r.nextToken + 1)
      = (r.nextToken + 3, configPath hno) :: (r.nextToken + 2, logsPath hno) ::
        r.active := by
    rw [filter_cons_ne_token (by omega), filter_cons_ne_token (by omega),
      filter_cons_eq_token rfl,
      filter_ne_token_of_lt hall (by omega)]
  have hA3 : (((r.nextToken + 3, configPath hno) ::
        (r.nextToken + 2, logsPath hno) :: r.active).filter
          fun q => q.1 != r.nextToken + 2)
      = (r.nextToken + 3, configPath hno) :: r.active := by
    rw [filter_cons_ne_token (by omega), filter_cons_eq_token rfl,
      filter_ne_token_of_lt hall (by omega)]
  have hA4 : (((r.nextToken + 3, configPath hno) :: r.active).filter
          fun q => q.1 != r.nextToken + 3)
      = r.active := by
    rw [filter_cons_eq_token rfl, filter_ne_token_of_lt hall (by omega)]
  have h3 : (cleanup (mountEffect hno r).1 (mountEffect hno r).2).active
      = r.active := by
    show ((((((mountEffect hno r).2.unsubscribe
        r.nextToken).unsubscribe (r.nextToken + 1)).unsubscribe
        (r.nextToken + 2)).unsubscribe (r.nextToken + 3))).active = r.active
    simp only [Registry.unsubscribe]
    have hact : (mountEffect hno r).2.active =
        (r.nextToken + 3, configPath hno) :: (r.nextToken + 2, logsPath hno) ::
        (r.nextToken + 1, alertsPath hno) :: (r.nextToken, dataPath hno) ::
        r.active := rfl
    rw [hact, hA1, hA2, hA3, hA4]
  refine ⟨rfl, rfl, h3, ?_, ?_⟩
  · have hmt : ∀ (rr : Registry), (mountEffect hno2 rr).2.active =
        (rr.nextToken + 3, configPath hno2) :: (rr.nextToken + 2, logsPath hno2) ::
        (rr.nextToken + 1, alertsPath hno2) :: (rr.nextToken, dataPath hno2) ::
        rr.active := fun rr => rfl
    have hnt : (cleanup (mountEffect hno r).1 (mountEffect hno r).2).nextToken
        = r.nextToken + 4 := by
      rw [cleanup_nextToken]
      rfl
    rw [hmt, hnt, h3]
  · simp only [Registry.unsubscribe, List.filter_filter]
    congr 1
    apply List.filter_congr
    intro p _
    cases hx : (p.1 != t) <;> simp [hx]

/-- C7 witness: the lifecycle evaluated from a fresh registry for device
identity "23" and a change to identity "24". -/
theorem subscription_lifecycle_witness :
    ((Registry.active ⟨0, []⟩).all (fun p => decide (p.1 < Registry.nextToken ⟨0, []⟩)) = true ∧
    ((mountEffect "23" ⟨0, []⟩).1 = [0, 1, 2, 3] ∧
     (mountEffect "23" ⟨0, []⟩).2.active =
       (3, configPath "23") :: (2, logsPath "23") ::
       (1, alertsPath "23") :: (0, dataPath "23") :: [] ∧
     (cleanup (mountEffect "23" ⟨0, []⟩).1 (mountEffect "23" ⟨0, []⟩).2).active = [] ∧
     (mountEffect "24"
         (cleanup (mountEffect "23" ⟨0, []⟩).1 (mountEffect "23" ⟨0, []⟩).2)).2.active =
       (7, configPath "24") :: (6, logsPath "24") ::
       (5, alertsPath "24") :: (4, dataPath "24") :: [] ∧
     (Registry.unsubscribe (Registry.unsubscribe ⟨5, [(4, "p")]⟩ 4) 4) =
       Registry.unsubscribe ⟨5, [(4, "p")]⟩ 4)) :=
  ⟨by decide,
   by
    have h := subscription_lifecycle "23" "24" ⟨0, []⟩ ⟨5, [(4, "p")]⟩ 4 (by decide)
    simpa using h⟩

/-- C6: a SaveConfig call issues exactly one write, to the device's config
path, carrying the argument as literal payload, and leaves the local
component state (in particular the config slot) untouched. -/
theorem save_config_single_write (hno : String) (newConfig : DeviceConfig)
    (s : ComponentState) :
    (handleSaveConfig hno newConfig s).1 =
      [{ path := configPath hno, payload := StorePayload.config newConfig }] ∧
    (handleSaveConfig hno newConfig s).1.length = 1 ∧
    (handleSaveConfig hno newConfig s).2 = s :=
  ⟨rfl, rfl, rfl⟩

/-- C8 counterexample: after a config snapshot with data followed by an empty
config notification, the config state still holds the earlier value, not
null, refuting "the config state is left unset (null)". -/
theorem config_empty_cex :
    ¬ (onConfigValue none
        (onConfigValue (some [("brand", "X")]) initialState)).config = none := by
  decide

/-- C8 amended: on an empty config notification the config state is left
unchanged — in particular it remains null if no config data was ever
received — and no synthetic default config is applied. -/
theorem config_empty_unchanged (s : ComponentState) :
    onConfigValue none s = s ∧
    (onConfigValue none initialState).config = none :=
  ⟨rfl, rfl⟩

/-- C9: only the telemetry registration passes an error callback; an error
event on the alerts, logs or config subscription runs no component code, so
it neither flips the connected flag nor changes any state slot. -/
theorem only_telemetry_error_handler (hno : String) (s : ComponentState) :
    ((effectSubscriptions hno).filter fun sub => sub.hasErrorHandler) =
      [{ path := dataPath hno, hasErrorHandler := true }] ∧
    ((effectSubscriptions hno).countP fun sub => sub.hasErrorHandler) = 1 ∧
    step StoreEvent.alertsError s = s ∧
    step StoreEvent.logsError s = s ∧
    step StoreEvent.configError s = s ∧
    (step StoreEvent.alertsError s).isConnected = s.isConnected ∧
    (step StoreEvent.logsError s).isConnected = s.isConnected ∧
    (step StoreEvent.configError s).isConnected = s.isConnected :=
  ⟨rfl, rfl, rfl, rfl, rfl, rfl, rfl, rfl⟩

/-- C10: the synthesized telemetry fallback always carries the fixed location
lat 6.9271, lng 79.8612, so every empty telemetry notification displays
exactly this constant coordinate. -/
theorem fallback_location_constant (now : String) (s : ComponentState) :
    (mockDeviceData now).location = { lat := 6.9271, lng := 79.8612 } ∧
    (onDataValue now none s).deviceData = some (mockDeviceData now) ∧
    ((onDataValue now none s).deviceData.map DeviceData.location) =
      some { lat := 6.9271, lng := 79.8612 } :=
  ⟨rfl, rfl, rfl⟩

end DeviceMonitor
